import Mathlib

/-!
Shallow embedding of the post-archive logic of the `stillwwater/website`
single-page application. The embedded code lives in
`src/components/Archive.tsx` (manifest type, archive list, post resolver,
markdown highlight callback, heading-anchor slugify callback) and
`src/components/App.tsx` (route switch). External collaborators
(react-router, markdown-it, markdown-it-anchor, highlight.js) are modelled
at their documented interfaces, with all configuration values taken from the
source.
-/

namespace Website

/-- `PostMetadata` from `Archive.tsx`: one manifest entry. `readtime` is
declared `number` in the source but may be absent from the JSON manifest
(the spec calls it optional), so it is embedded as `Option Nat`; `none`
plays the role of JavaScript `undefined`. -/
structure PostMetadata where
  name : String
  file : String
  link : String
  date : String
  readtime : Option Nat
deriving Repr, DecidableEq

/-- `makePostUrl` from `Archive.tsx`: the archive list's route target for a
post, the template string `a/$\x7bpost.link\x7d`. -/
def makePostUrl (post : PostMetadata) : String :=
  "a/" ++ post.link

/-- The sequence of route targets produced by `Archive`'s
`posts.map((post, index) => ... <PostLink post=... />)`: one link per
manifest entry, in manifest order, no sorting. -/
def archiveLinks (posts : List PostMetadata) : List String :=
  posts.map makePostUrl

/-- The JSX expression `\x7bprops.post.readtime && ' • N min read'\x7d` in
`PostLink`, under React's rendering rules for expression children:
`undefined` (here `none`) renders nothing, the number `0` short-circuits the
`&&` to `0` and React renders the number `0` as the text "0", and a nonzero
number selects the template string. -/
def readtimeAnnotation : Option Nat → String
  | none => ""
  | some rt => if rt = 0 then "0" else " • " ++ toString rt ++ " min read"

/-- The text content of `PostLink`'s `archive-post-date` span: the date
followed by the rendered readtime expression. -/
def postDateSpan (post : PostMetadata) : String :=
  post.date ++ readtimeAnnotation post.readtime

/-- JavaScript regular-expression class `\s` (the whitespace class used in
the slugify callback's `/\s+/g`): ASCII whitespace controls, space, and the
Unicode whitespace code points matched by ECMAScript `\s`. -/
def isJsWhitespace (c : Char) : Bool :=
  let n := c.toNat
  n = 0x9 || n = 0xa || n = 0xb || n = 0xc || n = 0xd || n = 0x20 ||
  n = 0xa0 || n = 0x1680 || (0x2000 ≤ n && n ≤ 0x200a) ||
  n = 0x2028 || n = 0x2029 || n = 0x202f || n = 0x205f || n = 0x3000 || n = 0xfeff

/-- `.replace(/\s+/g, '-')` on a character list: each maximal run of
whitespace characters is replaced by a single hyphen. The `Bool` argument
records whether the previous character was part of a whitespace run. -/
def collapseWsAux : Bool → List Char → List Char
  | _, [] => []
  | prevWs, c :: cs =>
    if isJsWhitespace c then
      if prevWs then collapseWsAux true cs
      else '-' :: collapseWsAux true cs
    else c :: collapseWsAux false cs

/-- `.replace(/\s+/g, '-')`: entry point of `collapseWsAux` (no run is open
at the start of the string). -/
def collapseWs (l : List Char) : List Char :=
  collapseWsAux false l

/-- The character class `[a-zA-Z0-9-]` kept by
`.replace(/[^a-zA-Z0-9-]/g, '')`. -/
def isSlugChar (c : Char) : Bool :=
  ('a' ≤ c && c ≤ 'z') || ('A' ≤ c && c ≤ 'Z') || ('0' ≤ c && c ≤ '9') || c = '-'

/-- The string pipeline of the slugify callback in `Post`
(`Archive.tsx`): `str.toLowerCase().replace(/\s+/g, '-')
.replace(/[^a-zA-Z0-9-]/g, '')`. `toLowerCase` is embedded as per-character
ASCII lowercasing (`Char.toLower`); non-ASCII letters are unaffected by
this step in the embedding but are deleted by the final character filter
either way. -/
def slugifyCore (s : String) : String :=
  String.mk (List.filter isSlugChar (collapseWs (List.map Char.toLower s.toList)))

/-- The full slugify option passed to markdown-it-anchor in `Post`: the
template string `a/$\x7bprops.match.params.post\x7d/` prefixed to the
transformed heading text. `scope` is the post route parameter. -/
def anchorSlugify (scope text : String) : String :=
  "a/" ++ scope ++ "/" ++ slugifyCore text

/-- The `level: 2` option passed to markdown-it-anchor in `Post`: the
minimum heading level that receives a permalink anchor. -/
def anchorMinLevel : Nat := 2

/-- The permalink element markdown-it-anchor emits for a slug: an anchor
whose href is the fragment `#` followed by the slug. -/
def permalinkHtml (slug : String) : String :=
  "<a class=\"header-anchor\" href=\"#" ++ slug ++ "\">¶</a>"

/-- Heading rendering under the markdown-it-anchor configuration in `Post`
(`permalink: true`, `level: 2`, `permalinkBefore: false`, the slugify
callback above), following the library's documented interface: a heading of
level at least `anchorMinLevel` receives `id` equal to the generated slug
and the permalink element appended after the heading text
(`permalinkBefore: false`); lower levels are rendered untouched. -/
def renderHeading (scope : String) (lvl : Nat) (text : String) : String :=
  if anchorMinLevel ≤ lvl then
    "<h" ++ toString lvl ++ " id=\"" ++ anchorSlugify scope text ++ "\">" ++
      text ++ permalinkHtml (anchorSlugify scope text) ++
      "</h" ++ toString lvl ++ ">"
  else
    "<h" ++ toString lvl ++ ">" ++ text ++ "</h" ++ toString lvl ++ ">"

/-- The pluggable highlighting capability (highlight.js at its interface):
`getLanguage` says whether a language name is registered, and `highlight`
either produces highlighted HTML or fails (a thrown exception in the
source, embedded as `Except.error`). -/
structure Highlighter where
  getLanguage : String → Bool
  highlight : String → String → Except Unit String

/-- The `highlight` option passed to `MarkdownIt` in `Post`: if the fence's
language is nonempty (`lang &&` truthiness) and registered, try to
highlight, swallowing any failure (`catch`); in every other case return
the empty string. The embedding is a total function: the `try/catch` means
the callback never propagates a highlighting failure. -/
def mdHighlight (hl : Highlighter) (str lang : String) : String :=
  if lang = "" then ""
  else if hl.getLanguage lang then
    match hl.highlight lang str with
    | Except.ok v => v
    | Except.error _ => ""
  else ""

/-- markdown-it's `escapeHtml` applied to code-block contents when the
highlight option returns the empty string. -/
def escapeHtmlChar (c : Char) : String :=
  if c = '&' then "&amp;"
  else if c = '<' then "&lt;"
  else if c = '>' then "&gt;"
  else if c = '"' then "&quot;"
  else String.mk [c]

/-- markdown-it's `escapeHtml` over a whole string. -/
def escapeHtml (s : String) : String :=
  String.join (s.toList.map escapeHtmlChar)

/-- A block of an already-parsed markdown document, as far as the highlight
path is concerned: ordinary content (whose HTML does not involve the
highlighter) or a fenced code block with its declared language. -/
inductive Block where
  | text (html : String)
  | code (lang str : String)
deriving Repr, DecidableEq

/-- Rendering of one block under markdown-it's documented highlight
contract: a fenced code block is wrapped in `<pre><code>`; if the highlight
option returned the empty string the raw code is HTML-escaped instead
(plain, unhighlighted text). -/
def renderBlock (hl : Highlighter) : Block → String
  | Block.text h => h
  | Block.code lang str =>
    let highlighted := mdHighlight hl str lang
    "<pre><code>" ++ (if highlighted = "" then escapeHtml str else highlighted) ++
      "</code></pre>"

/-- Rendering of a parsed document: concatenation of its blocks' HTML. -/
def renderDoc (hl : Highlighter) : List Block → String
  | [] => ""
  | b :: bs => renderBlock hl b ++ renderDoc hl bs

/-- Result of a network fetch: parsed value, or a rejected promise (handled
by `.catch` in the source). -/
inductive FetchOutcome (α : Type) where
  | ok (val : α)
  | err
deriving Repr, DecidableEq

/-- The fixed 404 document set by `Post` when the manifest has no matching
entry. -/
def notFoundDocument : String :=
  "# 404\nThe post you are looking for no longer exists."

/-- `$\x7bpost\x7d.md`: the expected asset filename for a route slug. -/
def expectedFile (slug : String) : String :=
  slug ++ ".md"

/-- The branch structure of `Post`'s effect, viewed as an outcome: early
return on a falsy route parameter (absent or empty string), the 404
document when `posts.filter(post => post.file === file)` is empty, or a
fetch of `posts/$\x7bfile\x7d` when a match exists. -/
inductive ResolveOutcome where
  | idle
  | notFound
  | fetchAsset (path : String)
deriving Repr, DecidableEq

/-- The resolution decision of `Post`'s `useEffect` once the manifest has
loaded: mirrors `if (!post) return`, the filter on `file`, and the asset
fetch target. `none` is an absent route parameter; the source's truthiness
test also treats the empty string as absent. -/
def resolve (posts : List PostMetadata) (slug : Option String) : ResolveOutcome :=
  match slug with
  | none => ResolveOutcome.idle
  | some s =>
    if s = "" then ResolveOutcome.idle
    else if (posts.filter (fun p => p.file == expectedFile s)).length = 0 then
      ResolveOutcome.notFound
    else
      ResolveOutcome.fetchAsset ("posts/" ++ expectedFile s)

/-- The component state and observable effects after `Post`'s `useEffect`
for one navigation has run to quiescence: the `contents` state (initially
the empty string, set only by `setContents`), the asset path requested (if
the inner fetch was reached), and whether a fetch failure was logged via
`console.error`. -/
structure NavResult where
  contents : String
  assetRequested : Option String
  loggedError : Bool
deriving Repr, DecidableEq

/-- Full embedding of `Post`'s `useEffect`: given the route parameter, the
manifest fetch outcome, and the asset fetch outcome (consulted only if the
asset fetch is reached), produce the final `contents` state and effects.
`if (!post) return` leaves `contents` at its initial empty string; a failed
manifest or asset fetch is only logged (`.catch(err => console.error(err))`)
and leaves `contents` unchanged. -/
def postEffect (slug : Option String) (manifest : FetchOutcome (List PostMetadata))
    (asset : FetchOutcome String) : NavResult :=
  let s := match slug with | none => "" | some v => v
  if s = "" then ⟨"", none, false⟩
  else
    match manifest with
    | FetchOutcome.err => ⟨"", none, true⟩
    | FetchOutcome.ok posts =>
      if (posts.filter (fun p => p.file == expectedFile s)).length = 0 then
        ⟨notFoundDocument, none, false⟩
      else
        match asset with
        | FetchOutcome.ok text => ⟨text, some ("posts/" ++ expectedFile s), false⟩
        | FetchOutcome.err => ⟨"", some ("posts/" ++ expectedFile s), true⟩

/-- Sample manifest entry used by concrete witnesses. -/
def samplePostA : PostMetadata :=
  { name := "Post A", file := "post-a.md", link := "post-a",
    date := "2020-01-01", readtime := some 5 }

/-- Second sample manifest entry (no readtime) used by concrete witnesses. -/
def samplePostB : PostMetadata :=
  { name := "Post B", file := "post-b.md", link := "post-b",
    date := "2020-02-01", readtime := none }

/-- Manifest entry whose `link` names another entry's `file`:
`crossPostX.link ++ ".md" = "y.md" = crossPostY.file`. -/
def crossPostX : PostMetadata :=
  { name := "X", file := "x.md", link := "y", date := "2020-01-01", readtime := none }

/-- Companion entry for `crossPostX`. -/
def crossPostY : PostMetadata :=
  { name := "Y", file := "y.md", link := "x", date := "2020-01-02", readtime := none }

/-- Manifest entry with a `readtime` of zero. -/
def zeroReadtimePost : PostMetadata :=
  { name := "Post Z", file := "z.md", link := "z",
    date := "2020-02-02", readtime := some 0 }

/-- A highlighter that recognises no language and whose highlight call always
fails; used to witness the highlight-fallback theorem. -/
def failingHighlighter : Highlighter :=
  ⟨fun _ => false, fun _ _ => Except.error ()⟩

/-- The manifest filter in `Post` selects nothing exactly when no entry's
`file` equals the expected filename. -/
lemma file_filter_nil_iff (posts : List PostMetadata) (f : String) :
    (posts.filter (fun p => p.file == f)).length = 0 ↔ ∀ p ∈ posts, p.file ≠ f := by
  rw [List.length_eq_zero, List.filter_eq_nil_iff]
  simp

/-- For a nonempty slug, `resolve` lands in `notFound` exactly when no entry
matches, and in `fetchAsset` of the slug-derived path exactly when some entry
matches. -/
lemma resolve_eq_cases (posts : List PostMetadata) (s : String) (hs : s ≠ "") :
    (resolve posts (some s) = ResolveOutcome.notFound ↔
      ¬ ∃ p ∈ posts, p.file = expectedFile s) ∧
    (resolve posts (some s) = ResolveOutcome.fetchAsset ("posts/" ++ expectedFile s) ↔
      ∃ p ∈ posts, p.file = expectedFile s) := by
  by_cases hz : (posts.filter (fun p => p.file == expectedFile s)).length = 0
  · have hno : ¬ ∃ p ∈ posts, p.file = expectedFile s := by
      rw [file_filter_nil_iff] at hz
      rintro ⟨p, hp, hfe⟩
      exact hz p hp hfe
    have hr : resolve posts (some s) = ResolveOutcome.notFound := by
      simp [resolve, hs, hz]
    rw [hr]
    constructor
    · simp [hno]
    · simp [hno]
  · have hex : ∃ p ∈ posts, p.file = expectedFile s := by
      rw [file_filter_nil_iff] at hz
      push_neg at hz
      exact hz
    have hr : resolve posts (some s) =
        ResolveOutcome.fetchAsset ("posts/" ++ expectedFile s) := by
      simp [resolve, hs, hz]
    rw [hr]
    constructor
    · simp [hex]
    · simp [hex]

/-- C1 counterexample: the claim quantifies over every route slug, but for
the empty slug (how the source's `if (!post) return` truthiness test sees an
absent parameter) against the empty manifest, no entry has `file` equal to
the expected filename and yet the resolver does not produce the NotFound
outcome — it returns early instead — refuting the claimed equivalence at
this input. -/
theorem C1_counterexample :
    resolve ([] : List PostMetadata) (some "") ≠ ResolveOutcome.notFound ∧
    ¬ ∃ p ∈ ([] : List PostMetadata), p.file = expectedFile "" := by
  constructor
  · decide
  · simp

/-- C1 (amended): for every manifest and every nonempty route slug `s`,
resolution yields the NotFound outcome (the fixed 404 document) iff no
manifest entry has `file` equal to `s ++ ".md"`, and when some entry
matches, the resolver proceeds to fetch the asset at the slug-derived path;
for an absent or empty slug the resolver instead returns early without
producing NotFound. -/
theorem C1_resolve_notFound_iff (posts : List PostMetadata) (s : String)
    (hs : s ≠ "") :
    (resolve posts (some s) = ResolveOutcome.notFound ↔
      ¬ ∃ p ∈ posts, p.file = expectedFile s) ∧
    ((∃ p ∈ posts, p.file = expectedFile s) →
      resolve posts (some s) =
        ResolveOutcome.fetchAsset ("posts/" ++ expectedFile s)) :=
  have hc := resolve_eq_cases posts s hs
  ⟨hc.1, fun hex => hc.2.mpr hex⟩

/-- C1 witness: the amended theorem instantiated at a one-entry manifest and
its matching slug. -/
theorem C1_resolve_notFound_iff_witness :
    (resolve [samplePostA] (some "post-a") = ResolveOutcome.notFound ↔
      ¬ ∃ p ∈ [samplePostA], p.file = expectedFile "post-a") ∧
    ((∃ p ∈ [samplePostA], p.file = expectedFile "post-a") →
      resolve [samplePostA] (some "post-a") =
        ResolveOutcome.fetchAsset ("posts/" ++ expectedFile "post-a")) :=
  C1_resolve_notFound_iff [samplePostA] "post-a" (by decide)

/-- C2 counterexample: the claim's own stated algorithm (lower-case, collapse
whitespace runs to single hyphens, delete characters outside `[a-zA-Z0-9-]`)
keeps the hyphens produced from the leading and trailing whitespace, so on
`"  multiple   spaces "` the code computes `"-multiple-spaces-"`, not the
claimed `"multiple-spaces"`. -/
theorem C2_counterexample :
    slugifyCore "  multiple   spaces " = "-multiple-spaces-" ∧
    slugifyCore "  multiple   spaces " ≠ "multiple-spaces" := by
  constructor
  · decide
  · decide

/-- C2 (amended): the anchor slug is computed by lower-casing, replacing each
maximal whitespace run by one hyphen, and deleting every character outside
`[a-zA-Z0-9-]`; the function is pure, `slugifyCore "Hello, World!"` is
`"hello-world"`, and `slugifyCore "  multiple   spaces "` is
`"-multiple-spaces-"` (boundary whitespace becomes hyphens, which the final
filter keeps). -/
theorem C2_slugify_spec :
    (∀ h : String, slugifyCore h =
      String.mk (List.filter isSlugChar (collapseWs (List.map Char.toLower h.toList)))) ∧
    slugifyCore "Hello, World!" = "hello-world" ∧
    slugifyCore "  multiple   spaces " = "-multiple-spaces-" :=
  ⟨fun _ => rfl, by decide, by decide⟩

/-- C3 counterexample: with the route parameter absent the displayed contents
stay the initial empty string, not the fixed apology document — whereas the
same navigation with a present-but-unmatched slug does display the apology —
so the absent-slug outcome is not the NotFound outcome. -/
theorem C3_counterexample :
    (postEffect none (FetchOutcome.ok [samplePostA]) (FetchOutcome.ok "hello")).contents
      ≠ notFoundDocument ∧
    (postEffect (some "missing") (FetchOutcome.ok [samplePostA])
      (FetchOutcome.ok "hello")).contents = notFoundDocument := by
  constructor
  · decide
  · decide

/-- C3 (amended): when the route parameter is absent — or the empty string,
which the source's truthiness test treats identically — the effect returns
early: no fetch is issued, nothing is logged, and the displayed contents
remain the initial empty document, which is not the apology document shown
by the no-matching-entry path. -/
theorem C3_absent_slug_idle (manifest : FetchOutcome (List PostMetadata))
    (asset : FetchOutcome String) :
    postEffect none manifest asset = ⟨"", none, false⟩ ∧
    postEffect (some "") manifest asset = ⟨"", none, false⟩ ∧
    notFoundDocument ≠ "" :=
  ⟨rfl, rfl, by decide⟩

/-- C4: for every heading of level at least 2 under scope path `p`, the
generated anchor target is exactly `"a/" ++ p ++ "/" ++ slugifyCore h`, the
heading carries that target as its `id` with the permalink element appended
after the heading text; a level-1 heading receives no anchor; and for scope
`"my-post"` with heading `"Setup Guide"` the target is
`"a/my-post/setup-guide"`. -/
theorem C4_heading_anchor (p h : String) (lvl : Nat) (hlvl : 2 ≤ lvl) :
    anchorSlugify p h = "a/" ++ p ++ "/" ++ slugifyCore h ∧
    renderHeading p lvl h =
      "<h" ++ toString lvl ++ " id=\"" ++ anchorSlugify p h ++ "\">" ++
        h ++ permalinkHtml (anchorSlugify p h) ++
        "</h" ++ toString lvl ++ ">" ∧
    renderHeading p 1 h = "<h" ++ toString 1 ++ ">" ++ h ++ "</h" ++ toString 1 ++ ">" ∧
    anchorSlugify "my-post" "Setup Guide" = "a/my-post/setup-guide" := by
  refine ⟨rfl, ?_, rfl, by decide⟩
  have hcond : anchorMinLevel ≤ lvl := hlvl
  unfold renderHeading
  rw [if_pos hcond]

/-- C4 witness: the anchor theorem instantiated at scope `"my-post"`,
heading `"Setup Guide"`, level 2. -/
theorem C4_heading_anchor_witness :
    anchorSlugify "my-post" "Setup Guide" =
      "a/" ++ "my-post" ++ "/" ++ slugifyCore "Setup Guide" ∧
    renderHeading "my-post" 2 "Setup Guide" =
      "<h" ++ toString 2 ++ " id=\"" ++ anchorSlugify "my-post" "Setup Guide" ++ "\">" ++
        "Setup Guide" ++ permalinkHtml (anchorSlugify "my-post" "Setup Guide") ++
        "</h" ++ toString 2 ++ ">" ∧
    renderHeading "my-post" 1 "Setup Guide" =
      "<h" ++ toString 1 ++ ">" ++ "Setup Guide" ++ "</h" ++ toString 1 ++ ">" ∧
    anchorSlugify "my-post" "Setup Guide" = "a/my-post/setup-guide" :=
  C4_heading_anchor "my-post" "Setup Guide" 2 (by decide)

/-- C5: if a fenced block's language is not recognised by the highlighter, or
the highlight call fails, the highlight option returns the empty string (the
`try/catch` makes it total, so rendering never throws), the block is emitted
as escaped plain text inside `<pre><code>`, and the HTML of the surrounding
document is still produced around it unchanged. -/
theorem C5_highlight_fallback (hl : Highlighter) (lang str : String)
    (pre post : List Block)
    (hfail : hl.getLanguage lang = false ∨ hl.highlight lang str = Except.error ()) :
    mdHighlight hl str lang = "" ∧
    renderBlock hl (Block.code lang str) =
      "<pre><code>" ++ escapeHtml str ++ "</code></pre>" ∧
    renderDoc hl (pre ++ Block.code lang str :: post) =
      renderDoc hl pre ++
        ("<pre><code>" ++ escapeHtml str ++ "</code></pre>") ++
        renderDoc hl post := by
  have hmd : mdHighlight hl str lang = "" := by
    unfold mdHighlight
    by_cases h0 : lang = ""
    · simp [h0]
    · rcases hfail with hg | he
      · simp [h0, hg]
      · by_cases hg : hl.getLanguage lang
        · simp [h0, hg, he]
        · simp [h0, hg]
  have hblock : renderBlock hl (Block.code lang str) =
      "<pre><code>" ++ escapeHtml str ++ "</code></pre>" := by
    simp [renderBlock, hmd]
  refine ⟨hmd, hblock, ?_⟩
  induction pre with
  | nil => simp [renderDoc, hblock]
  | cons b bs ih => simp [renderDoc, ih, String.append_assoc]

/-- C5 witness: the fallback theorem instantiated at a highlighter that
recognises nothing, an unrecognised language, and a document with content
before and after the code block. -/
theorem C5_highlight_fallback_witness :
    mdHighlight failingHighlighter "let x = 1" "zig" = "" ∧
    renderBlock failingHighlighter (Block.code "zig" "let x = 1") =
      "<pre><code>" ++ escapeHtml "let x = 1" ++ "</code></pre>" ∧
    renderDoc failingHighlighter
        ([Block.text "<p>intro</p>"] ++
          Block.code "zig" "let x = 1" :: [Block.text "<p>outro</p>"]) =
      renderDoc failingHighlighter [Block.text "<p>intro</p>"] ++
        ("<pre><code>" ++ escapeHtml "let x = 1" ++ "</code></pre>") ++
        renderDoc failingHighlighter [Block.text "<p>outro</p>"] :=
  C5_highlight_fallback failingHighlighter "zig" "let x = 1"
    [Block.text "<p>intro</p>"] [Block.text "<p>outro</p>"] (Or.inl rfl)

/-- C6 counterexample: after a matching entry is found and the asset fetch
fails, the failure is logged but the displayed contents remain the initial
empty string — indistinguishable from the idle (absent-slug) display — so no
dedicated error view is presented to the user. -/
theorem C6_counterexample :
    (postEffect (some "post-a") (FetchOutcome.ok [samplePostA])
      FetchOutcome.err).contents = "" ∧
    (postEffect (some "post-a") (FetchOutcome.ok [samplePostA])
        FetchOutcome.err).contents =
      (postEffect none (FetchOutcome.ok [samplePostA]) FetchOutcome.err).contents ∧
    (postEffect (some "post-a") (FetchOutcome.ok [samplePostA])
      FetchOutcome.err).loggedError = true := by
  refine ⟨by decide, by decide, by decide⟩

/-- C6 (amended): when a matching entry exists but the asset fetch fails, the
failure is logged and the NotFound document is not shown (the failure is not
conflated with SlugNotFound), but no dedicated error state is presented: the
displayed contents remain the initial empty document. -/
theorem C6_asset_fetch_error (posts : List PostMetadata) (s : String)
    (hs : s ≠ "")
    (hm : (posts.filter (fun p => p.file == expectedFile s)).length ≠ 0) :
    postEffect (some s) (FetchOutcome.ok posts) FetchOutcome.err =
      ⟨"", some ("posts/" ++ expectedFile s), true⟩ ∧
    notFoundDocument ≠ "" := by
  refine ⟨?_, by decide⟩
  simp [postEffect, hs, hm]

/-- C6 witness: the asset-fetch-error theorem instantiated at a one-entry
manifest and its matching slug. -/
theorem C6_asset_fetch_error_witness :
    postEffect (some "post-a") (FetchOutcome.ok [samplePostA]) FetchOutcome.err =
      ⟨"", some ("posts/" ++ expectedFile "post-a"), true⟩ ∧
    notFoundDocument ≠ "" :=
  C6_asset_fetch_error [samplePostA] "post-a" (by decide) (by decide)

/-- C7 counterexample: for a manifest entry with `readtime` equal to `0`, the
rendered date span is the date followed by a literal `"0"` (React renders the
number `0` produced by the short-circuited `&&`), so the span does not
contain only the date. -/
theorem C7_counterexample :
    postDateSpan zeroReadtimePost ≠ zeroReadtimePost.date ∧
    postDateSpan zeroReadtimePost = "2020-02-020" := by
  constructor
  · decide
  · decide

/-- C7 (amended): the `"N min read"` annotation is shown exactly for truthy
`readtime`; when `readtime` is absent the span contains only the date, but
when `readtime` is `0` the `min read` text is suppressed and a literal `"0"`
is rendered after the date (React renders the number `0` from the
short-circuited `&&` expression). -/
theorem C7_readtime_span (p : PostMetadata) :
    (p.readtime = none → postDateSpan p = p.date) ∧
    (p.readtime = some 0 → postDateSpan p = p.date ++ "0") ∧
    (∀ n : Nat, p.readtime = some n → n ≠ 0 →
      postDateSpan p = p.date ++ (" • " ++ toString n ++ " min read")) := by
  refine ⟨?_, ?_, ?_⟩
  · intro hn
    simp [postDateSpan, readtimeAnnotation, hn]
  · intro hn
    simp [postDateSpan, readtimeAnnotation, hn]
  · intro n hn hnz
    simp [postDateSpan, readtimeAnnotation, hn, hnz]

/-- C7 witness: the readtime theorem instantiated at the sample entry with a
readtime of five minutes. -/
theorem C7_readtime_span_witness :
    postDateSpan samplePostA =
      samplePostA.date ++ (" • " ++ toString 5 ++ " min read") :=
  (C7_readtime_span samplePostA).2.2 5 rfl (by decide)

/-- C8: the archive list produces exactly one link per manifest entry, in
manifest order, and the link at each position is `"a/" ++ link` of the entry
at that position; no sorting or reordering is applied. -/
theorem C8_archive_order (posts : List PostMetadata) :
    (archiveLinks posts).length = posts.length ∧
    ∀ i (hi : i < posts.length),
      (archiveLinks posts).get ⟨i, by simpa [archiveLinks] using hi⟩ =
        "a/" ++ (posts.get ⟨i, hi⟩).link := by
  refine ⟨by simp [archiveLinks], ?_⟩
  intro i hi
  simp [archiveLinks, makePostUrl]

/-- C8 witness: the order theorem instantiated at a two-entry manifest,
reading off the second link. -/
theorem C8_archive_order_witness :
    (archiveLinks [samplePostB, samplePostA]).length =
      ([samplePostB, samplePostA] : List PostMetadata).length ∧
    (archiveLinks [samplePostB, samplePostA]).get
        ⟨1, by simp [archiveLinks]⟩ =
      "a/" ++ (([samplePostB, samplePostA] : List PostMetadata).get ⟨1, by decide⟩).link :=
  ⟨(C8_archive_order [samplePostB, samplePostA]).1,
    (C8_archive_order [samplePostB, samplePostA]).2 1 (by decide)⟩

/-- C9: when the manifest has loaded and contains no entry with the expected
filename, the effect sets the fixed apology document, requests no asset, and
logs nothing — whatever the (never-consulted) asset fetch would have
returned. -/
theorem C9_notFound_no_fetch (posts : List PostMetadata) (s : String)
    (asset : FetchOutcome String) (hs : s ≠ "")
    (hm : ∀ p ∈ posts, p.file ≠ expectedFile s) :
    postEffect (some s) (FetchOutcome.ok posts) asset =
      ⟨notFoundDocument, none, false⟩ := by
  have hz : (posts.filter (fun p => p.file == expectedFile s)).length = 0 :=
    (file_filter_nil_iff posts (expectedFile s)).mpr hm
  simp [postEffect, hs, hz]

/-- C9 witness: the no-further-fetch theorem instantiated at a slug that the
one-entry manifest does not contain. -/
theorem C9_notFound_no_fetch_witness :
    postEffect (some "missing") (FetchOutcome.ok [samplePostA])
        (FetchOutcome.ok "text") =
      ⟨notFoundDocument, none, false⟩ :=
  C9_notFound_no_fetch [samplePostA] "missing" (FetchOutcome.ok "text")
    (by decide) (by decide)

/-- C10 counterexample: in the manifest `[crossPostX, crossPostY]`, entry
`crossPostX` has `link = "y"` and `file = "x.md"`, so clicking its archive
link (route slug `"y"`) proceeds to fetch `"posts/y.md"` — another entry's
file — even though `crossPostX.file ≠ crossPostX.link ++ ".md"`, refuting
the claimed equivalence. -/
theorem C10_counterexample :
    makePostUrl crossPostX = "a/" ++ crossPostX.link ∧
    crossPostX.file ≠ crossPostX.link ++ ".md" ∧
    resolve [crossPostX, crossPostY] (some crossPostX.link) =
      ResolveOutcome.fetchAsset ("posts/" ++ expectedFile crossPostX.link) := by
  refine ⟨rfl, by decide, by decide⟩

/-- C10 (amended): for every manifest entry `e` with a nonempty `link`,
navigating via `e`'s archive link (route slug `e.link`) proceeds to the
fetch/render path rather than NotFound iff some entry of the manifest has
`file = e.link ++ ".md"` — for a single-entry manifest this is exactly
`e.file = e.link ++ ".md"` — and the asset path fetched is
`"posts/" ++ e.link ++ ".md"`, derived from the slug, not from the matched
entry. -/
theorem C10_link_file_agreement (posts : List PostMetadata) (e : PostMetadata)
    (_he : e ∈ posts) (hl : e.link ≠ "") :
    makePostUrl e = "a/" ++ e.link ∧
    (resolve posts (some e.link) =
        ResolveOutcome.fetchAsset ("posts/" ++ expectedFile e.link) ↔
      ∃ p ∈ posts, p.file = e.link ++ ".md") ∧
    (resolve posts (some e.link) = ResolveOutcome.notFound ↔
      ¬ ∃ p ∈ posts, p.file = e.link ++ ".md") := by
  have hc := resolve_eq_cases posts e.link hl
  exact ⟨rfl, hc.2, hc.1⟩

/-- C10 witness: the amended theorem instantiated at a self-consistent
one-entry manifest, where the condition reduces to
`e.file = e.link ++ ".md"`. -/
theorem C10_link_file_agreement_witness :
    makePostUrl samplePostA = "a/" ++ samplePostA.link ∧
    (resolve [samplePostA] (some samplePostA.link) =
        ResolveOutcome.fetchAsset ("posts/" ++ expectedFile samplePostA.link) ↔
      ∃ p ∈ [samplePostA], p.file = samplePostA.link ++ ".md") ∧
    (resolve [samplePostA] (some samplePostA.link) = ResolveOutcome.notFound ↔
      ¬ ∃ p ∈ [samplePostA], p.file = samplePostA.link ++ ".md") :=
  C10_link_file_agreement [samplePostA] samplePostA (by decide) (by decide)

end Website
